import Mathlib

/-!
Shallow embedding of the marathon batch push-notification pipeline, translated
from the repository sources:

* `src/workers/batch_pg_workers.go` — the `BatchPGWorker` (`pgReader`,
  `GetStatus`, `SetStatus`, `updateStatus`);
* `src/unnamed/part_000` — the Kafka `Producer` loop;
* `src/models/helpers.go` — `GetDB` / `InitDb`;
* `src/worker/util_test.go` — the tests of
  `ParseProcessBatchWorkerMessageArray` (whose implementation is not in the
  sources; it is modelled from the specification, see below).

Machine integers of the Go source (`int`, `int64`) are modelled as `Nat` where
the source only ever holds non-negative counts (row counts, page counts,
channel counters) and as `Int` where the source uses sentinel negatives
(the `limit := -1` default in `pgReader`).  External effects (the postgres
store, redis, kafka, `sql.Open`) are modelled as explicit parameters/oracles.
-/

namespace Marathon

/-- A user-token row as consumed by `pgReader`: the device token and locale
(`userToken.Token`, `userToken.Locale` in `batch_pg_workers.go`). -/
structure UserToken where
  token : String
  locale : String
deriving DecidableEq

/-- A modifiers list, `[][]interface{}` in the Go source.  `pgReader` reads only
entries whose first element is the string `"LIMIT"`, type-asserting the second
element to `int`; all modifier arguments reaching `pgReader`'s logic are
integers, so an entry is modelled as a `String × Int` pair. -/
abbrev Modifiers := List (String × Int)

/-- `batch_pg_workers.go` lines 292–297: `limit := -1`, then a loop over the
modifiers assigning `limit = modifier[1].(int)` whenever `modifier[0] ==
"LIMIT"` (so the last `LIMIT` entry wins). -/
def extractLimit (modifiers : Modifiers) : Int :=
  modifiers.foldl (fun acc m => if m.1 = "LIMIT" then m.2 else acc) (-1)

/-- Modelled from the spec: `countUserTokens(app, service, filters) → int64`
(`models.CountUserTokensByFilters` is not under the sources; only its caller
is).  The store is modelled as the already-filtered list of user tokens for
the job's `(app, service, filters)`, so the count is its length. -/
def countUserTokensByFilters (store : List UserToken) : Nat :=
  store.length

/-- Modelled from the spec: `selectUserTokens(app, service, filters, modifiers)
→ [UserToken]` (`models.GetUserTokensBatchByFilters` is not under the
sources).  Per the spec the recognized modifier entries are `("LIMIT", int)`
and `("ORDER BY", string)`, and `OFFSET is not wired into selectUserTokens`.
The store is modelled as the already-filtered, already-ordered row list, so
the query returns its first `limit` rows and ignores every other entry
(in particular any `OFFSET` entry). -/
def getUserTokensBatchByFilters (store : List UserToken) (modifiers : Modifiers) :
    List UserToken :=
  let limit := extractLimit modifiers
  if limit ≤ 0 then store else store.take limit.toNat

/-- `batch_pg_workers.go` line 321: `pages := userTokensCount/int64(limit) + 1`.
Both operands are non-negative, so Go's truncated `int64` division coincides
with `Nat` division. -/
def pgReaderTotalPages (totalTokens limit : Nat) : Nat :=
  totalTokens / limit + 1

/-- The page count the specification asks for: `ceil(totalTokens / limit)`.
This definition follows the spec's words (for comparison with
`pgReaderTotalPages`, which is translated from the source). -/
def specTotalPages (totalTokens limit : Nat) : Nat :=
  (totalTokens + limit - 1) / limit

/-- `batch_pg_workers.go` lines 322 and 333: the `workerModifiers` value built
inside `pgReader` — `{"LIMIT", limit}` and then `workerModifiers[1] =
{"OFFSET", page}`.  This value is dead: the batch query is issued with the
original `modifiers`, never with `workerModifiers`. -/
def workerModifiersAt (limit : Int) (page : Nat) : Modifiers :=
  [("LIMIT", limit), ("OFFSET", (page : Int))]

/-- Outcome of `pgReader`'s control flow: `Logger.Fatal` aborts the job
(lines 298–300), otherwise the reader completes its paging loop. -/
inductive ReaderOutcome where
  | fatalInvalidLimit : ReaderOutcome
  | completed (totalTokens totalPages : Nat) : ReaderOutcome
deriving DecidableEq

/-- `pgReader`'s control flow, from `batch_pg_workers.go` lines 292–330:
extract the limit; `Logger.Fatal` if it is `≤ 0`; otherwise count the tokens
and compute the page count. -/
def pgReaderOutcome (store : List UserToken) (modifiers : Modifiers) : ReaderOutcome :=
  let limit := extractLimit modifiers
  if limit ≤ 0 then .fatalInvalidLimit
  else
    let totalTokens := countUserTokensByFilters store
    .completed totalTokens (pgReaderTotalPages totalTokens limit.toNat)

/-- A store query issued by `pgReader`: the initial count (line 303) or one
per-page batch select (line 334), recorded with the modifiers it was issued
with. -/
inductive StoreQuery where
  | count : StoreQuery
  | selectBatch (modifiers : Modifiers) : StoreQuery
deriving DecidableEq

/-- The sequence of store queries `pgReader` issues, in program order.  On an
invalid limit, `Logger.Fatal` fires before any query.  Otherwise one count,
then one `GetUserTokensBatchByFilters` call per page — each issued with the
original `modifiers` argument (line 335); the `workerModifiers` value holding
the `OFFSET` entry is never passed. -/
def pgReaderStoreQueries (store : List UserToken) (modifiers : Modifiers) :
    List StoreQuery :=
  let limit := extractLimit modifiers
  if limit ≤ 0 then []
  else
    .count ::
      (List.range (pgReaderTotalPages (countUserTokensByFilters store) limit.toNat)).map
        (fun _ => .selectBatch modifiers)

/-- The messages `pgReader` sends to `outChan`, one per user token of each
page's batch (lines 348–361), modelled by the `(token, locale)` pair written
into the message before it is marshalled. -/
def pgReaderEmitted (store : List UserToken) (modifiers : Modifiers) :
    List (String × String) :=
  let limit := extractLimit modifiers
  if limit ≤ 0 then []
  else
    let batch := (getUserTokensBatchByFilters store modifiers).map
      (fun ut => (ut.token, ut.locale))
    ((List.range (pgReaderTotalPages (countUserTokensByFilters store) limit.toNat)).map
      (fun _ => batch)).flatten

/-- The four `JobProgress` counters of the worker
(`TotalTokens, ProcessedTokens, TotalPages, ProcessedPages`). -/
structure JobProgress where
  totalTokens : Nat
  processedTokens : Nat
  totalPages : Nat
  processedPages : Nat
deriving DecidableEq

/-- The counter snapshots produced by one iteration of `pgReader`'s page loop
(lines 330–362), in mutation order: the loop variable `worker.ProcessedPages`
is set to `p`; `worker.ProcessedTokens` is reset to `0` (line 347); then one
increment per token of the page's batch (line 360).  `prevPT` is the value
`ProcessedTokens` holds on entry (left over from the previous page). -/
def pageSnapshots (tt pages k prevPT p : Nat) : List JobProgress :=
  ⟨tt, prevPT, pages, p⟩ :: ⟨tt, 0, pages, p⟩ ::
    (List.range k).map (fun i => ⟨tt, i + 1, pages, p⟩)

/-- The snapshots of the remaining `fuel` iterations of the page loop starting
at page `p` (so `p + fuel` equals the total page count when called from
`pgReaderTrace`), followed by the state after the loop's final increment of
`worker.ProcessedPages`.  Every iteration reads the same batch of `k` tokens,
since the query is issued with the unchanged `modifiers` on every page. -/
def pagesTrace (tt pages k : Nat) : Nat → Nat → Nat → List JobProgress
  | 0, p, prevPT => [⟨tt, prevPT, pages, p⟩]
  | fuel + 1, p, prevPT =>
      pageSnapshots tt pages k prevPT p ++ pagesTrace tt pages k fuel (p + 1) k

/-- The full sequence of `JobProgress` states through one `pgReader` run, one
snapshot per mutation of the worker's counters, in program order: the Go
zero-value state, `TotalTokens := count` (line 311), `TotalPages := pages`
(line 326), then the page loop.  The asynchronous `updateStatus` goroutine
(lines 269–281) may observe the worker at any point, i.e. any element of this
trace. -/
def pgReaderTrace (store : List UserToken) (modifiers : Modifiers) : List JobProgress :=
  let limit := extractLimit modifiers
  if limit ≤ 0 then [⟨0, 0, 0, 0⟩]
  else
    let tt := countUserTokensByFilters store
    let pages := pgReaderTotalPages tt limit.toNat
    let k := (getUserTokensBatchByFilters store modifiers).length
    ⟨0, 0, 0, 0⟩ :: ⟨tt, 0, 0, 0⟩ :: ⟨tt, 0, pages, 0⟩ :: pagesTrace tt pages k pages 0 0

/-- The final counter state when `pgReader` returns: the loop has run `pages`
iterations, the last of which left `ProcessedTokens` at the batch length. -/
def pgReaderFinal (store : List UserToken) (modifiers : Modifiers) : JobProgress :=
  (pgReaderTrace store modifiers).getLastD ⟨0, 0, 0, 0⟩

/-! ### Status reporter: `GetStatus` / `SetStatus` (`batch_pg_workers.go` 237–267) -/

/-- A JSON value appearing in the worker-status map: a string (the worker's
UUID), an integer counter, or an opaque already-serialized JSON fragment (the
`message` object and the `filters` array, which `json.Marshal` serializes
recursively). -/
inductive JVal where
  | str (s : String) : JVal
  | int (n : Int) : JVal
  | raw (json : String) : JVal
deriving DecidableEq

/-- Serialization of one JSON value (Go `encoding/json`); the string values
reaching it (UUIDs) contain no characters needing escapes. -/
def encodeJVal : JVal → String
  | .str s => "\"" ++ s ++ "\""
  | .int n => toString n
  | .raw json => json

/-- Insertion into a key-sorted association list (Go's `encoding/json`
serializes a `map[string]interface{}` with its keys in sorted order). -/
def insertKV (p : String × JVal) : List (String × JVal) → List (String × JVal)
  | [] => [p]
  | q :: qs => if p.1 ≤ q.1 then p :: q :: qs else q :: insertKV p qs

/-- Key-sort of an association list, mirroring `encoding/json`'s sorted map
keys. -/
def sortKV (l : List (String × JVal)) : List (String × JVal) :=
  l.foldr insertKV []

/-- `json.Marshal` of the flat `map[string]interface{}` built by `GetStatus`:
a JSON object with the keys in sorted order. -/
def jsonMarshalFlat (l : List (String × JVal)) : String :=
  "\x7b" ++
    String.intercalate ","
      ((sortKV l).map (fun p => "\"" ++ p.1 ++ "\":" ++ encodeJVal p.2)) ++
    "\x7d"

/-- `GetStatus` (`batch_pg_workers.go` 237–248): the worker-status map literal,
with its fields in source order.  `workerID` is `worker.ID` (the notification
UUID), `messageJSON` and `filtersJSON` stand for the serialized
`worker.Message` and `worker.Filters`. -/
def getStatus (workerID : String) (startedAt : Int) (totalTokens : Int)
    (processedTokens : Int) (totalPages : Int) (processedPages : Int)
    (messageJSON filtersJSON : String) : List (String × JVal) :=
  [("notificationID", .str workerID),
   ("startedAt", .int startedAt),
   ("totalTokens", .int totalTokens),
   ("processedTokens", .int processedTokens),
   ("totalPages", .int totalPages),
   ("processedPages", .int processedPages),
   ("message", .raw messageJSON),
   ("filters", .raw filtersJSON)]

/-- Outcome of one `SetStatus` call: either the key/value pair stored in
redis, or a `Logger.Panic` (which unwinds the goroutine — a fatal outcome,
not a mere log line). -/
inductive SetStatusResult where
  | stored (key value : String) : SetStatusResult
  | panicked (msg : String) : SetStatusResult
deriving DecidableEq

/-- Whether the `SetStatus` call was fatal to the worker. -/
def SetStatusResult.isFatal : SetStatusResult → Bool
  | .stored _ _ => false
  | .panicked _ => true

/-- `SetStatus` (`batch_pg_workers.go` 251–267): marshal the status map
(`json.Marshal` cannot fail on this map of strings/ints/objects, so the
marshal-error `Panic` branch is unreachable and not modelled); build
`redisKey := strings.Join([notifierID, workerID], "|")`; `cli.Set(redisKey,
strStatus, 0)`; if the redis write errs, `worker.Logger.Panic("Failed to set
notification key in redis")`.  The redis client's possible error is the
`setErr` oracle. -/
def setStatus (setErr : Option String) (notifierID workerID : String)
    (status : List (String × JVal)) : SetStatusResult :=
  let strStatus := jsonMarshalFlat status
  let redisKey := String.intercalate "|" [notifierID, workerID]
  match setErr with
  | some _ => .panicked "Failed to set notification key in redis"
  | none => .stored redisKey strStatus

/-! ### Kafka producer (`src/unnamed/part_000` lines 26–55) -/

/-- A message handed to the producer: topic and serialized payload
(`messages.KafkaMessage`). -/
structure KafkaMessage where
  topic : String
  message : String
deriving DecidableEq

/-- What the producer loop does with one received message: a successful
synchronous send (`Logger.Info "Sent message"`), or a send error
(`Logger.Error "Error sending message"` — the message is dropped and the
loop moves on). -/
inductive ProducerEvent where
  | sent (topic : String) : ProducerEvent
  | sendError (err : String) : ProducerEvent
deriving DecidableEq

/-- The `Producer` receive loop (`part_000` lines 37–55) on a finite stream of
messages, with `send` the behaviour of the synchronous
`producer.SendMessage`.  Returns the sequence of `SendMessage` call arguments
(first component) and the logged events (second): each received message is
sent exactly once — on error the loop logs and continues with the next
message; there is no retry and no backoff. -/
def producerRun (send : KafkaMessage → Except String Unit) :
    List KafkaMessage → List KafkaMessage × List ProducerEvent
  | [] => ([], [])
  | m :: rest =>
    let r := producerRun send rest
    match send m with
    | .ok _ => (m :: r.1, .sent m.topic :: r.2)
    | .error e => (m :: r.1, .sendError e :: r.2)

/-- A send oracle that always fails (a permanently unreachable broker). -/
def alwaysFailSend : KafkaMessage → Except String Unit :=
  fun _ => .error "kafka: broker down"

/-! ### Database handle: `GetDB` / `InitDb` (`src/models/helpers.go` 23–70) -/

/-- The argument bundle of `GetDB`/`InitDb`. -/
structure ConnArgs where
  host : String
  user : String
  port : Int
  sslmode : String
  dbName : String
  password : String
deriving DecidableEq

/-- A database handle, identified by the connection string it was opened
with. -/
structure DBConn where
  connInfo : String
deriving DecidableEq

/-- The connection string built by `InitDb` (`helpers.go` 52–58):
`"host=%s user=%s port=%d sslmode=%s dbname=%s"`, with `" password=%s"`
appended only when the password is non-empty. -/
def connStr (a : ConnArgs) : String :=
  let base := "host=" ++ a.host ++ " user=" ++ a.user ++ " port=" ++ toString a.port ++
    " sslmode=" ++ a.sslmode ++ " dbname=" ++ a.dbName
  if a.password ≠ "" then base ++ " password=" ++ a.password else base

/-- `InitDb` (`helpers.go` 51–70): build the connection string and open it.
`sql.Open`'s possible failure is the `openOk` oracle; on success the handle
wraps the connection string (the gorp `DbMap` construction is unconditional
plumbing). -/
def initDb (openOk : Bool) (a : ConnArgs) : Except String DBConn :=
  if openOk then .ok ⟨connStr a⟩ else .error "sql.Open failed"

/-- The result of one `GetDB` call: the new value of the package-level `_db`
variable, the returned `(DB, error)` pair, and how many times `InitDb`
(hence `sql.Open`) was invoked during the call. -/
structure GetDBResult where
  state : Option DBConn
  result : Except String DBConn
  opens : Nat

/-- `GetDB` (`helpers.go` 37–48): if the package-level `_db` is nil, call
`InitDb` with the given arguments (resetting `_db` to nil on error);
otherwise return the cached `_db` without touching the arguments. -/
def getDB (openOk : Bool) (st : Option DBConn) (a : ConnArgs) : GetDBResult :=
  match st with
  | some db => ⟨some db, .ok db, 0⟩
  | none =>
    match initDb openOk a with
    | .ok db => ⟨some db, .ok db, 1⟩
    | .error e => ⟨none, .error e, 1⟩

/-! ### `ParseProcessBatchWorkerMessageArray`

The implementation (`worker/util.go`) is not among the sources; only its test
file `src/worker/util_test.go` is.  It is modelled from the spec (scenario
S5) and the expectations of that test file. -/

/-- Whether a character is a hexadecimal digit. -/
def isHexDigit (c : Char) : Bool :=
  c.isDigit || ('a' ≤ c && c ≤ 'f') || ('A' ≤ c && c ≤ 'F')

/-- Whether a string is a canonically-formatted UUID: 36 characters, dashes at
positions 8, 13, 18 and 23, hexadecimal digits elsewhere. -/
def isCanonicalUUID (s : String) : Bool :=
  s.length = 36 &&
    (s.data.enum.all fun p =>
      if p.1 = 8 ∨ p.1 = 13 ∨ p.1 = 18 ∨ p.1 = 23 then p.2 = '-' else isHexDigit p.2)

/-- Modelled from the spec: parsing of the `jobId` position by the UUID
library (`uuid.FromString`, not under the sources).  A canonical UUID string
parses to itself; per the test expectations, a too-short string fails with
`uuid: UUID string too short`, and any other malformed string fails with an
error mentioning `uuid`. -/
def parseUUID (s : String) : Except String String :=
  if isCanonicalUUID s then .ok s
  else if s.length < 36 then .error "uuid: UUID string too short"
  else .error "uuid: incorrect UUID format"

/-- A user entry of the message array's `users` position (`worker.User`):
`user_id` and `token`. -/
structure BatchUser where
  userID : String
  token : String
deriving DecidableEq

/-- A position of the 8-element batch-worker message array.  The Go input is
`[]interface{}`; each position's expected dynamic type is one variant here
(strings for `jobId`/`appName`/`service`, a template object, generic maps for
`context`/`metadata`, the user list, an `int64`). -/
inductive MVal where
  | str (s : String) : MVal
  | templ (body defaults : List (String × String)) : MVal
  | map (m : List (String × String)) : MVal
  | users (us : List BatchUser) : MVal
  | int (n : Int) : MVal
deriving DecidableEq

/-- The parsed batch-worker message. -/
structure ProcessBatchWorkerMessage where
  jobID : String
  appName : String
  service : String
  templateBody : List (String × String)
  templateDefaults : List (String × String)
  context : List (String × String)
  metadata : List (String × String)
  users : List BatchUser
  expiresAt : Int
deriving DecidableEq

/-- The error message for a wrongly-sized message array. -/
def invalidMessageArray : String := "InvalidMessageArray"

/-- Modelled from the spec (scenario S5) and `src/worker/util_test.go`:
`ParseProcessBatchWorkerMessageArray`.  An array without exactly the 8
positions `jobId, appName, service, templateObj, context, metadata, users,
expiresAt` fails with `InvalidMessageArray`; a non-UUID `jobId` fails with
the UUID library's error; an empty users array fails with `there must be at
least one user`; otherwise the parsed message preserves every position.  (A
position of the wrong dynamic type makes the Go code panic on its type
assertion — the test file marks those cases as pending `XIt` specs; the
panic is modelled as a distinguished error.) -/
def parseProcessBatchWorkerMessageArray (arr : List MVal) :
    Except String ProcessBatchWorkerMessage :=
  if arr.length ≠ 8 then .error invalidMessageArray
  else
    match arr with
    | [.str jobID, .str appName, .str service, .templ body defaults,
       .map ctx, .map metadata, .users us, .int expiresAt] =>
      match parseUUID jobID with
      | .error e => .error e
      | .ok id =>
        if us.isEmpty then .error "there must be at least one user"
        else .ok ⟨id, appName, service, body, defaults, ctx, metadata, us, expiresAt⟩
    | _ => .error "panic: interface conversion"

/-- The store of the spec's end-to-end scenario S6: 1250 matching user
tokens. -/
def store1250 : List UserToken :=
  List.replicate 1250 ⟨"t", "en"⟩

/-! ## Helper lemmas -/

/-- The total length of `n` copies of a list, flattened. -/
theorem length_flatten_replicate {α : Type} (n : Nat) (l : List α) :
    (List.replicate n l).flatten.length = n * l.length := by
  induction n with
  | zero => simp
  | succ n ih =>
    simp only [List.replicate_succ, List.flatten_cons, List.length_append, ih,
      Nat.succ_mul]
    omega

/-- Folding the `LIMIT`-extraction step over modifiers none of which is a
`LIMIT` entry leaves the accumulator unchanged. -/
theorem foldl_limit_const (l : Modifiers) (init : Int)
    (h : ∀ m ∈ l, m.1 ≠ "LIMIT") :
    l.foldl (fun acc m => if m.1 = "LIMIT" then m.2 else acc) init = init := by
  induction l generalizing init with
  | nil => rfl
  | cons m rest ih =>
    have hm : ¬ m.1 = "LIMIT" := h m (List.mem_cons_self m rest)
    rw [List.foldl_cons]
    simp only [if_neg hm]
    exact ih init fun x hx => h x (List.mem_cons_of_mem _ hx)

/-- Mapping a constant function over `List.range n` yields `n` copies. -/
theorem range_map_const {α : Type} (n : Nat) (c : α) :
    (List.range n).map (fun _ => c) = List.replicate n c := by
  simp [List.map_const']

/-- The fallback of `getLastD` is irrelevant on a non-empty list. -/
theorem getLastD_default_irrel {α : Type} {l : List α} (h : l ≠ []) (d₁ d₂ : α) :
    l.getLastD d₁ = l.getLastD d₂ := by
  cases l with
  | nil => exact absurd rfl h
  | cons b t => rw [List.getLastD_cons, List.getLastD_cons]

/-- `getLastD` of an append whose right part is non-empty is the right part's
last element. -/
theorem getLastD_append_right {α : Type} (l₁ : List α) {l₂ : List α}
    (h : l₂ ≠ []) (d : α) : (l₁ ++ l₂).getLastD d = l₂.getLastD d := by
  induction l₁ generalizing d with
  | nil => rfl
  | cons a t ih =>
    rw [List.cons_append, List.getLastD_cons, ih a, getLastD_default_irrel h a d]

/-- A page-loop trace is never empty. -/
theorem pagesTrace_ne_nil (tt pages k fuel p prevPT : Nat) :
    pagesTrace tt pages k fuel p prevPT ≠ [] := by
  cases fuel <;> simp [pagesTrace, pageSnapshots]

/-- The last state of the page-loop trace: `ProcessedPages` has advanced by
the number of executed iterations, and `ProcessedTokens` holds the last
page's batch length (or the entry value if no iteration ran). -/
theorem pagesTrace_getLastD (tt pages k : Nat) (d : JobProgress) :
    ∀ (fuel p prevPT : Nat),
      (pagesTrace tt pages k fuel p prevPT).getLastD d =
        ⟨tt, if fuel = 0 then prevPT else k, pages, p + fuel⟩
  | 0, p, prevPT => by simp [pagesTrace]
  | fuel + 1, p, prevPT => by
    simp only [pagesTrace]
    rw [getLastD_append_right _ (pagesTrace_ne_nil tt pages k fuel (p + 1) k) d,
      pagesTrace_getLastD tt pages k d fuel (p + 1) k]
    have h1 : (if fuel = 0 then k else k) = k := by split <;> rfl
    have h2 : (if fuel + 1 = 0 then prevPT else k) = k := rfl
    have h3 : p + 1 + fuel = p + (fuel + 1) := by omega
    rw [h1, h2, h3]

/-- The worker's final counters for a valid limit: all pages processed, with
`ProcessedTokens` left at the (page-independent) batch length. -/
theorem pgReaderFinal_eq (store : List UserToken) (modifiers : Modifiers)
    (h : 0 < extractLimit modifiers) :
    pgReaderFinal store modifiers =
      ⟨store.length,
       (getUserTokensBatchByFilters store modifiers).length,
       pgReaderTotalPages store.length (extractLimit modifiers).toNat,
       pgReaderTotalPages store.length (extractLimit modifiers).toNat⟩ := by
  have h' : ¬ extractLimit modifiers ≤ 0 := not_le.mpr h
  simp only [pgReaderFinal, pgReaderTrace, if_neg h']
  rw [List.getLastD_cons, List.getLastD_cons, List.getLastD_cons,
    pagesTrace_getLastD]
  have hp : pgReaderTotalPages store.length (extractLimit modifiers).toNat ≠ 0 := by
    simp [pgReaderTotalPages]
  simp [countUserTokensByFilters, hp]

/-- When `L` divides `T`, the spec's ceiling page count is exactly `T / L`. -/
theorem specTotalPages_dvd (T L : Nat) (hL : 0 < L) (h : L ∣ T) :
    specTotalPages T L = T / L := by
  obtain ⟨q, rfl⟩ := h
  have hnum : L * q + L - 1 = L * q + (L - 1) := by omega
  simp only [specTotalPages]
  rw [hnum, Nat.mul_add_div hL, Nat.div_eq_of_lt (by omega),
    Nat.mul_div_cancel_left _ hL]
  omega

/-- When `L` does not divide `T`, the spec's ceiling page count is
`T / L + 1`. -/
theorem specTotalPages_not_dvd (T L : Nat) (hL : 0 < L) (h : ¬ L ∣ T) :
    specTotalPages T L = T / L + 1 := by
  have h0 : T % L ≠ 0 := fun hc => h (Nat.dvd_of_mod_eq_zero hc)
  obtain ⟨q, r, hr0, hrL, rfl⟩ : ∃ q r, 0 < r ∧ r < L ∧ T = L * q + r :=
    ⟨T / L, T % L, Nat.pos_of_ne_zero h0, Nat.mod_lt _ hL, (Nat.div_add_mod T L).symm⟩
  have hnum : L * q + r + L - 1 = L * (q + 1) + (r - 1) := by
    have : L * (q + 1) = L * q + L := by ring
    omega
  simp only [specTotalPages]
  rw [hnum, Nat.mul_add_div hL, Nat.mul_add_div hL,
    Nat.div_eq_of_lt (by omega), Nat.div_eq_of_lt hrL]

/-! ## Claims -/

/-- C10: `GetDB` is a process-wide singleton over the package variable `_db`.
Whenever a handle is cached, a call returns that handle, invokes `InitDb`
(and hence `sql.Open`) zero times, leaves the cache unchanged, and its result
is independent of every connection argument; the first successful call is the
one that opens and caches the handle built from its own arguments. -/
theorem c10_getdb_singleton (a b : ConnArgs) (okA okB : Bool) (db : DBConn) :
    getDB okA (some db) a = ⟨some db, .ok db, 0⟩ ∧
    getDB okA (some db) a = getDB okB (some db) b ∧
    getDB true none a = ⟨some ⟨connStr a⟩, .ok ⟨connStr a⟩, 1⟩ :=
  ⟨rfl, rfl, rfl⟩

/-- C9: a successful status write stores, under the key formed of the notifier
UUID, the character `|` and the worker/notification UUID, the JSON
serialization of the `GetStatus` map, and that map's field names are exactly
`notificationID, startedAt, totalTokens, processedTokens, totalPages,
processedPages, message, filters`. -/
theorem c9_status_key_and_fields (notifierID workerID : String)
    (startedAt tt pt tp pp : Int) (messageJSON filtersJSON : String) :
    setStatus none notifierID workerID
        (getStatus workerID startedAt tt pt tp pp messageJSON filtersJSON) =
      .stored (notifierID ++ "|" ++ workerID)
        (jsonMarshalFlat
          (getStatus workerID startedAt tt pt tp pp messageJSON filtersJSON)) ∧
    (getStatus workerID startedAt tt pt tp pp messageJSON filtersJSON).map Prod.fst =
      ["notificationID", "startedAt", "totalTokens", "processedTokens",
       "totalPages", "processedPages", "message", "filters"] :=
  ⟨rfl, rfl⟩

/-- C5 counterexample: a failing KV write makes `SetStatus` call
`Logger.Panic` — a fatal outcome — refuting the claim that a KV write error
is only logged and never halts the worker. -/
theorem c5_counterexample :
    (setStatus (some "connection refused")
        "5d1897ce-f83f-46ba-a4cf-ba7b09b99f62" "0fbdea98-71b8-4b21-a0ce-27a2452f9cb9"
        []).isFatal = true ∧
    setStatus (some "connection refused")
        "5d1897ce-f83f-46ba-a4cf-ba7b09b99f62" "0fbdea98-71b8-4b21-a0ce-27a2452f9cb9"
        [] =
      .panicked "Failed to set notification key in redis" :=
  ⟨rfl, rfl⟩

/-- C5 amended: a status write whose KV `Set` fails makes `SetStatus` panic
(fatal to the worker) rather than merely logging; only a successful write
stores the status and continues. -/
theorem c5_kv_failure_panics (e notifierID workerID : String)
    (status : List (String × JVal)) :
    setStatus (some e) notifierID workerID status =
      .panicked "Failed to set notification key in redis" ∧
    (setStatus (some e) notifierID workerID status).isFatal = true ∧
    (setStatus none notifierID workerID status).isFatal = false :=
  ⟨rfl, rfl, rfl⟩

/-- C6 counterexample: a message whose synchronous send fails permanently is
dropped after exactly one `SendMessage` call — the producer never makes a
second attempt, refuting the claim that it retries up to a configured number
of times before dropping. -/
theorem c6_counterexample :
    (producerRun alwaysFailSend [⟨"push-gcm_someapp", "payload"⟩]).1 =
      [⟨"push-gcm_someapp", "payload"⟩] ∧
    ¬ 2 ≤ (producerRun alwaysFailSend [⟨"push-gcm_someapp", "payload"⟩]).1.length ∧
    (producerRun alwaysFailSend [⟨"push-gcm_someapp", "payload"⟩]).2 =
      [.sendError "kafka: broker down"] :=
  ⟨rfl, by decide, rfl⟩

/-- C6 amended: the producer performs exactly one synchronous send per
received message; on a send error it logs the error and drops the message
immediately — no retry and no backoff — and continues with the next
message. -/
theorem c6_producer_single_attempt (send : KafkaMessage → Except String Unit)
    (msgs : List KafkaMessage) :
    (producerRun send msgs).1 = msgs ∧
    (producerRun send msgs).2 = msgs.map (fun m =>
      match send m with
      | .ok _ => ProducerEvent.sent m.topic
      | .error e => ProducerEvent.sendError e) := by
  induction msgs with
  | nil => exact ⟨rfl, rfl⟩
  | cons m rest ih =>
    cases h : send m <;> simp [producerRun, h, ih.1, ih.2]

/-- C1: on a two-token store with `LIMIT 1` (three pages, since the page count
is `2/1 + 1`), every per-page batch query is issued with the unchanged
original modifiers — no `OFFSET` entry, identical on every page — so every
page re-reads the first row and the reader emits the first token three times
instead of paging through disjoint slices. -/
theorem c1_offset_never_applied :
    pgReaderStoreQueries [⟨"t0", "en"⟩, ⟨"t1", "en"⟩] [("LIMIT", 1)] =
      [.count, .selectBatch [("LIMIT", 1)], .selectBatch [("LIMIT", 1)],
       .selectBatch [("LIMIT", 1)]] ∧
    pgReaderEmitted [⟨"t0", "en"⟩, ⟨"t1", "en"⟩] [("LIMIT", 1)] =
      [("t0", "en"), ("t0", "en"), ("t0", "en")] :=
  ⟨rfl, rfl⟩

/-- C7: a modifiers list without a `LIMIT` entry, or whose effective `LIMIT`
value is `≤ 0`, makes `pgReader` fail fatally before issuing any store
query; with an effective `LIMIT > 0` it proceeds to the count query and the
per-page batch queries. -/
theorem c7_limit_validation (store : List UserToken) (modifiers : Modifiers) :
    ((∀ m ∈ modifiers, m.1 ≠ "LIMIT") →
      pgReaderOutcome store modifiers = .fatalInvalidLimit ∧
      pgReaderStoreQueries store modifiers = []) ∧
    (extractLimit modifiers ≤ 0 →
      pgReaderOutcome store modifiers = .fatalInvalidLimit ∧
      pgReaderStoreQueries store modifiers = []) ∧
    (0 < extractLimit modifiers →
      pgReaderOutcome store modifiers =
        .completed store.length
          (pgReaderTotalPages store.length (extractLimit modifiers).toNat) ∧
      pgReaderStoreQueries store modifiers =
        .count :: List.replicate
          (pgReaderTotalPages store.length (extractLimit modifiers).toNat)
          (.selectBatch modifiers)) := by
  refine ⟨?_, ?_, ?_⟩
  · intro h
    have hl : extractLimit modifiers = -1 := foldl_limit_const modifiers (-1) h
    refine ⟨?_, ?_⟩ <;> simp [pgReaderOutcome, pgReaderStoreQueries, hl]
  · intro h
    refine ⟨?_, ?_⟩ <;> simp [pgReaderOutcome, pgReaderStoreQueries, h]
  · intro h
    have h' : ¬ extractLimit modifiers ≤ 0 := not_le.mpr h
    refine ⟨?_, ?_⟩
    · simp [pgReaderOutcome, countUserTokensByFilters, h']
    · simp [pgReaderStoreQueries, countUserTokensByFilters, h', range_map_const]

/-- C7 witness: the three branches of `c7_limit_validation` at concrete
inputs — no `LIMIT` entry, `LIMIT 0`, and `LIMIT 2` over a one-token
store. -/
theorem c7_limit_validation_witness :
    (pgReaderOutcome [⟨"t0", "en"⟩] [("ORDER BY", 0)] = .fatalInvalidLimit ∧
      pgReaderStoreQueries [⟨"t0", "en"⟩] [("ORDER BY", 0)] = []) ∧
    (pgReaderOutcome [⟨"t0", "en"⟩] [("LIMIT", 0)] = .fatalInvalidLimit ∧
      pgReaderStoreQueries [⟨"t0", "en"⟩] [("LIMIT", 0)] = []) ∧
    (pgReaderOutcome [⟨"t0", "en"⟩] [("LIMIT", 2)] =
        .completed 1 (pgReaderTotalPages 1 2) ∧
      pgReaderStoreQueries [⟨"t0", "en"⟩] [("LIMIT", 2)] =
        .count :: List.replicate (pgReaderTotalPages 1 2)
          (.selectBatch [("LIMIT", 2)])) := by
  refine ⟨(c7_limit_validation _ _).1 ?_, (c7_limit_validation _ _).2.1 ?_,
    (c7_limit_validation [⟨"t0", "en"⟩] [("LIMIT", 2)]).2.2 ?_⟩
  · decide
  · decide
  · decide

/-- C2 counterexample: on a two-token store with `LIMIT 2` — a case where the
limit divides the token count exactly — the reader computes `totalPages = 2`,
while `ceil(2 / 2) = 1`; the page count is not the ceiling the claim
states. -/
theorem c2_counterexample :
    pgReaderOutcome [⟨"t0", "en"⟩, ⟨"t1", "en"⟩] [("LIMIT", 2)] = .completed 2 2 ∧
    specTotalPages 2 2 = 1 ∧ (2 : Nat) ≠ 1 :=
  ⟨rfl, rfl, by decide⟩

/-- C2 amended: for `limit = L > 0` and `totalTokens = T`, the reader computes
`totalPages = T / L + 1` (floor division plus one).  This equals
`ceil(T / L)` exactly when `L` does not divide `T`; when `L` divides `T`
(including `T = 0`) it is `ceil(T / L) + 1`. -/
theorem c2_total_pages (store : List UserToken) (modifiers : Modifiers)
    (h : 0 < extractLimit modifiers) :
    pgReaderOutcome store modifiers =
      .completed store.length
        (store.length / (extractLimit modifiers).toNat + 1) ∧
    (¬ (extractLimit modifiers).toNat ∣ store.length →
      store.length / (extractLimit modifiers).toNat + 1 =
        specTotalPages store.length (extractLimit modifiers).toNat) ∧
    ((extractLimit modifiers).toNat ∣ store.length →
      store.length / (extractLimit modifiers).toNat + 1 =
        specTotalPages store.length (extractLimit modifiers).toNat + 1) := by
  have hL : 0 < (extractLimit modifiers).toNat := by omega
  have h' : ¬ extractLimit modifiers ≤ 0 := not_le.mpr h
  refine ⟨?_, ?_, ?_⟩
  · simp [pgReaderOutcome, countUserTokensByFilters, pgReaderTotalPages, h']
  · intro hdvd
    rw [specTotalPages_not_dvd _ _ hL hdvd]
  · intro hdvd
    rw [specTotalPages_dvd _ _ hL hdvd]

/-- C2 witness: `c2_total_pages` on a two-token store with `LIMIT 2`: the
reader reports two pages where the ceiling is one. -/
theorem c2_total_pages_witness :
    pgReaderOutcome [⟨"t0", "en"⟩, ⟨"t1", "en"⟩] [("LIMIT", 2)] =
      .completed 2 (2 / 2 + 1) ∧
    ((2 : Nat) ∣ 2 → 2 / 2 + 1 = specTotalPages 2 2 + 1) := by
  have h := c2_total_pages [⟨"t0", "en"⟩, ⟨"t1", "en"⟩] [("LIMIT", 2)] (by decide)
  exact ⟨h.1, fun hd => h.2.2 hd⟩

/-- C4 (the code evaluated at the spec's S6 inputs): with `limit = 500` and a
store of 1250 matching tokens the reader reports `totalPages = 3` as the
claim states, but it emits 1500 messages — each of the three pages re-reads
the first 500 tokens, since every batch query is issued with the unchanged
modifiers and no offset — and the final `JobProgress` has
`processedTokens = 500` (the counter is reset at the start of each page),
not the claimed 1250. -/
theorem c4_s6_scenario :
    pgReaderOutcome store1250 [("LIMIT", 500)] = .completed 1250 3 ∧
    (pgReaderEmitted store1250 [("LIMIT", 500)]).length = 1500 ∧
    pgReaderFinal store1250 [("LIMIT", 500)] = ⟨1250, 500, 3, 3⟩ ∧
    (1500 : Nat) ≠ 1250 ∧ (500 : Nat) ≠ 1250 := by
  have h0 : ¬ extractLimit [("LIMIT", (500 : Int))] ≤ 0 := by decide
  have hlen : store1250.length = 1250 := by rw [store1250, List.length_replicate]
  have hbatch :
      (getUserTokensBatchByFilters store1250 [("LIMIT", 500)]).length = 500 := by
    simp only [getUserTokensBatchByFilters, if_neg h0, List.length_take, hlen]
    decide
  have hpages :
      pgReaderTotalPages (countUserTokensByFilters store1250)
        (extractLimit [("LIMIT", (500 : Int))]).toNat = 3 := by
    simp only [pgReaderTotalPages, countUserTokensByFilters, hlen]
    decide
  refine ⟨?_, ?_, ?_, by decide, by decide⟩
  · simp only [pgReaderOutcome, if_neg h0, countUserTokensByFilters, hlen]
    rw [show pgReaderTotalPages 1250 (extractLimit [("LIMIT", (500 : Int))]).toNat
        = 3 by decide]
  · simp only [pgReaderEmitted, if_neg h0, range_map_const, hpages,
      length_flatten_replicate, List.length_map, hbatch]
  · rw [pgReaderFinal_eq _ _ (by decide), hlen, hbatch]
    rw [show pgReaderTotalPages 1250 (extractLimit [("LIMIT", (500 : Int))]).toNat
        = 3 by decide]

/-- C8: `ParseProcessBatchWorkerMessageArray` rejects arrays without exactly 8
positions with `InvalidMessageArray`; rejects an empty users array with
`there must be at least one user`; rejects a non-UUID `jobId` with an error
mentioning `uuid`; and on a well-formed 8-element array succeeds, preserving
every position in the parsed message. -/
theorem c8_parse_message_array :
    (∀ arr : List MVal, arr.length ≠ 8 →
      parseProcessBatchWorkerMessageArray arr = .error "InvalidMessageArray") ∧
    (∀ (jobID appName service : String)
       (body defaults ctx md : List (String × String)) (expiresAt : Int),
      isCanonicalUUID jobID = true →
      parseProcessBatchWorkerMessageArray
          [.str jobID, .str appName, .str service, .templ body defaults,
           .map ctx, .map md, .users [], .int expiresAt] =
        .error "there must be at least one user") ∧
    (∀ (jobID appName service : String)
       (body defaults ctx md : List (String × String))
       (us : List BatchUser) (expiresAt : Int),
      isCanonicalUUID jobID = false →
      ∃ e, parseProcessBatchWorkerMessageArray
          [.str jobID, .str appName, .str service, .templ body defaults,
           .map ctx, .map md, .users us, .int expiresAt] = .error e ∧
        e.take 5 = "uuid:") ∧
    (∀ (jobID appName service : String)
       (body defaults ctx md : List (String × String))
       (us : List BatchUser) (expiresAt : Int),
      isCanonicalUUID jobID = true → us ≠ [] →
      parseProcessBatchWorkerMessageArray
          [.str jobID, .str appName, .str service, .templ body defaults,
           .map ctx, .map md, .users us, .int expiresAt] =
        .ok ⟨jobID, appName, service, body, defaults, ctx, md, us, expiresAt⟩) := by
  refine ⟨?_, ?_, ?_, ?_⟩
  · intro arr h
    simp only [parseProcessBatchWorkerMessageArray, if_pos h]
    rfl
  · intro jobID appName service body defaults ctx md expiresAt h
    simp [parseProcessBatchWorkerMessageArray, parseUUID, h]
  · intro jobID appName service body defaults ctx md us expiresAt h
    by_cases hlen : jobID.length < 36
    · refine ⟨"uuid: UUID string too short", ?_, by decide⟩
      simp [parseProcessBatchWorkerMessageArray, parseUUID, h, hlen]
    · refine ⟨"uuid: incorrect UUID format", ?_, by decide⟩
      simp [parseProcessBatchWorkerMessageArray, parseUUID, h, hlen]
  · intro jobID appName service body defaults ctx md us expiresAt h hus
    cases us with
    | nil => exact absurd rfl hus
    | cons u ut => simp [parseProcessBatchWorkerMessageArray, parseUUID, h]

/-- C8 witness: the four branches of `c8_parse_message_array` at concrete
inputs — a 1-element array, an empty users array under a valid UUID, the
test file's non-UUID `jobId` `"some-string"`, and a fully well-formed
array. -/
theorem c8_parse_message_array_witness :
    parseProcessBatchWorkerMessageArray [.str "x"] = .error "InvalidMessageArray" ∧
    parseProcessBatchWorkerMessageArray
        [.str "550e8400-e29b-41d4-a716-446655440000", .str "someapp", .str "gcm",
         .templ [("alert", "hi")] [("user_name", "Someone")], .map [("k", "v")],
         .map [("meta", "data")], .users [], .int 7] =
      .error "there must be at least one user" ∧
    (∃ e, parseProcessBatchWorkerMessageArray
        [.str "some-string", .str "someapp", .str "gcm",
         .templ [("alert", "hi")] [("user_name", "Someone")], .map [("k", "v")],
         .map [("meta", "data")], .users [⟨"u1", "tok1"⟩], .int 7] = .error e ∧
      e.take 5 = "uuid:") ∧
    parseProcessBatchWorkerMessageArray
        [.str "550e8400-e29b-41d4-a716-446655440000", .str "someapp", .str "gcm",
         .templ [("alert", "hi")] [("user_name", "Someone")], .map [("k", "v")],
         .map [("meta", "data")], .users [⟨"u1", "tok1"⟩], .int 7] =
      .ok ⟨"550e8400-e29b-41d4-a716-446655440000", "someapp", "gcm",
        [("alert", "hi")], [("user_name", "Someone")], [("k", "v")],
        [("meta", "data")], [⟨"u1", "tok1"⟩], 7⟩ := by
  refine ⟨c8_parse_message_array.1 [.str "x"] (by decide),
    c8_parse_message_array.2.1 _ _ _ _ _ _ _ _ (by decide),
    c8_parse_message_array.2.2.1 _ _ _ _ _ _ _ _ _ (by decide),
    c8_parse_message_array.2.2.2 _ _ _ _ _ _ _ _ _ (by decide) (by decide)⟩

/-- Adjacency chains trivially hold for a component that is constant over the
list. -/
theorem chain'_of_forall_eq {α : Type} (f : α → Nat) (c : Nat) :
    ∀ l : List α, (∀ x ∈ l, f x = c) →
      List.Chain' (fun a b => f a ≤ f b) l
  | [] => fun _ => List.chain'_nil
  | [_] => fun _ => List.chain'_singleton _
  | a :: b :: t => fun h => by
    rw [List.chain'_cons]
    refine ⟨?_, chain'_of_forall_eq f c (b :: t)
      (fun x hx => h x (List.mem_cons_of_mem _ hx))⟩
    rw [h a (List.mem_cons_self _ _),
      h b (List.mem_cons_of_mem _ (List.mem_cons_self _ _))]

/-- Every snapshot of one page-loop iteration carries the iteration's fixed
`totalTokens`, `totalPages` and `processedPages` values. -/
theorem pageSnapshots_fields (tt pages k prevPT p : Nat) :
    ∀ x ∈ pageSnapshots tt pages k prevPT p,
      x.totalTokens = tt ∧ x.totalPages = pages ∧ x.processedPages = p := by
  intro x hx
  simp only [pageSnapshots, List.mem_cons, List.mem_map, List.mem_range] at hx
  rcases hx with rfl | rfl | ⟨i, _, rfl⟩ <;> exact ⟨rfl, rfl, rfl⟩

/-- Every snapshot of the page-loop trace carries the run's `totalTokens` and
`totalPages`, and a `processedPages` no smaller than the starting page. -/
theorem pagesTrace_fields (tt pages k : Nat) :
    ∀ (fuel p prevPT : Nat), ∀ x ∈ pagesTrace tt pages k fuel p prevPT,
      x.totalTokens = tt ∧ x.totalPages = pages ∧ p ≤ x.processedPages
  | 0, p, prevPT => by
    intro x hx
    simp only [pagesTrace, List.mem_singleton] at hx
    subst hx
    exact ⟨rfl, rfl, Nat.le_refl p⟩
  | fuel + 1, p, prevPT => by
    intro x hx
    simp only [pagesTrace, List.mem_append] at hx
    rcases hx with h | h
    · obtain ⟨h1, h2, h3⟩ := pageSnapshots_fields tt pages k prevPT p x h
      exact ⟨h1, h2, Nat.le_of_eq h3.symm⟩
    · obtain ⟨h1, h2, h3⟩ := pagesTrace_fields tt pages k fuel (p + 1) k x h
      exact ⟨h1, h2, Nat.le_of_succ_le h3⟩

/-- `processedPages` is non-decreasing along the page-loop trace. -/
theorem pagesTrace_chain_pp (tt pages k : Nat) :
    ∀ (fuel p prevPT : Nat),
      List.Chain' (fun a b => a.processedPages ≤ b.processedPages)
        (pagesTrace tt pages k fuel p prevPT)
  | 0, _, _ => List.chain'_singleton _
  | fuel + 1, p, prevPT => by
    simp only [pagesTrace]
    rw [List.chain'_append]
    refine ⟨chain'_of_forall_eq (fun x => x.processedPages) p _
        (fun x hx => (pageSnapshots_fields tt pages k prevPT p x hx).2.2),
      pagesTrace_chain_pp tt pages k fuel (p + 1) k, ?_⟩
    intro x hx y hy
    have hx' := (pageSnapshots_fields tt pages k prevPT p x
      (List.mem_of_mem_getLast? hx)).2.2
    have hy' := (pagesTrace_fields tt pages k fuel (p + 1) k y
      (List.mem_of_mem_head? hy)).2.2
    omega

/-- C3 counterexample: on a one-token store with `LIMIT 1` (two pages, since
the page count is `1/1 + 1`), the `processedTokens` counter decreases
between successive states of the run — it reaches 1 on the first page and is
reset to 0 at the start of the second — so not every `JobProgress` counter
is monotonically non-decreasing between successive observations. -/
theorem c3_counterexample :
    pgReaderTrace [⟨"t", "en"⟩] [("LIMIT", 1)] =
      [⟨0, 0, 0, 0⟩, ⟨1, 0, 0, 0⟩, ⟨1, 0, 2, 0⟩, ⟨1, 0, 2, 0⟩, ⟨1, 0, 2, 0⟩,
       ⟨1, 1, 2, 0⟩, ⟨1, 1, 2, 1⟩, ⟨1, 0, 2, 1⟩, ⟨1, 1, 2, 1⟩, ⟨1, 1, 2, 2⟩] ∧
    ¬ List.Chain' (fun a b => a.processedTokens ≤ b.processedTokens)
        (pgReaderTrace [⟨"t", "en"⟩] [("LIMIT", 1)]) := by
  have ht : pgReaderTrace [⟨"t", "en"⟩] [("LIMIT", 1)] =
      [⟨0, 0, 0, 0⟩, ⟨1, 0, 0, 0⟩, ⟨1, 0, 2, 0⟩, ⟨1, 0, 2, 0⟩, ⟨1, 0, 2, 0⟩,
       ⟨1, 1, 2, 0⟩, ⟨1, 1, 2, 1⟩, ⟨1, 0, 2, 1⟩, ⟨1, 1, 2, 1⟩, ⟨1, 1, 2, 2⟩] := by
    rfl
  refine ⟨ht, ?_⟩
  rw [ht]
  simp [List.chain'_cons]

/-- C3 amended: three of the four counters — `totalTokens`, `totalPages` and
`processedPages` — are monotonically non-decreasing along every run's state
sequence; `processedTokens` is not: it is reset to 0 at the start of each
page and is non-decreasing only within a single page. -/
theorem c3_counters_monotone (store : List UserToken) (modifiers : Modifiers) :
    List.Chain' (fun a b => a.totalTokens ≤ b.totalTokens)
      (pgReaderTrace store modifiers) ∧
    List.Chain' (fun a b => a.totalPages ≤ b.totalPages)
      (pgReaderTrace store modifiers) ∧
    List.Chain' (fun a b => a.processedPages ≤ b.processedPages)
      (pgReaderTrace store modifiers) := by
  by_cases h : extractLimit modifiers ≤ 0
  · refine ⟨?_, ?_, ?_⟩ <;> simp [pgReaderTrace, h]
  · simp only [pgReaderTrace, if_neg h]
    refine ⟨?_, ?_, ?_⟩
    · rw [List.chain'_cons, List.chain'_cons, List.chain'_cons']
      refine ⟨Nat.zero_le _, Nat.le_refl _, ?_, ?_⟩
      · intro y hy
        have hyf := (pagesTrace_fields _ _ _ _ 0 0 y
          (List.mem_of_mem_head? hy)).1
        simp [hyf]
      · exact chain'_of_forall_eq (fun x => x.totalTokens) _ _
          (fun x hx => (pagesTrace_fields _ _ _ _ 0 0 x hx).1)
    · rw [List.chain'_cons, List.chain'_cons, List.chain'_cons']
      refine ⟨Nat.le_refl _, Nat.zero_le _, ?_, ?_⟩
      · intro y hy
        have hyf := (pagesTrace_fields _ _ _ _ 0 0 y
          (List.mem_of_mem_head? hy)).2.1
        simp [hyf]
      · exact chain'_of_forall_eq (fun x => x.totalPages) _ _
          (fun x hx => (pagesTrace_fields _ _ _ _ 0 0 x hx).2.1)
    · rw [List.chain'_cons, List.chain'_cons, List.chain'_cons']
      exact ⟨Nat.le_refl _, Nat.le_refl _, fun y _ => Nat.zero_le _,
        pagesTrace_chain_pp _ _ _ _ 0 0⟩

end Marathon
